import Mathlib

/-!
Shallow embedding of `schemato` (src/src/main.rs), a Postgres schema-migration
runner, and proofs about its orchestration engine.

Modelling conventions:
* `i32`/`i64` values (versions, counts) are `Int`; `u32`/`u64` values
  (attempts, backoff) are `Nat`, with `% 2^32` made explicit where the source
  arithmetic (`attempts + 1` in `connect_loop`) can wrap.
* Every database / filesystem side effect is recorded as an `Op` in a trace.
* `std::process::exit(1)` and a panicking `unwrap()` both end the process with
  a non-zero status; both are modelled as `RunResult.fatal`.  Exit status 0 is
  `RunResult.success`.
* The environment (`Env`) supplies the outside world's answers: discovered
  directory entries, per-attempt connection outcomes, query results, file
  contents, and statement execution outcomes.
-/

set_option maxRecDepth 4000

set_option allowUnsafeReducibility true in
attribute [semireducible] List.mergeSort

set_option allowUnsafeReducibility true in
attribute [semireducible] List.merge

namespace Schemato

/-- One observable operation issued by the program, in program order. -/
inductive Op where
  /-- A connection attempt (`connect_postgres`) for database `db`
      (`db = ""` is the administrative, database-less connection);
      `n` is the 1-based attempt number. -/
  | connectAttempt (db : String) (n : Nat)
  /-- `std::thread::sleep` of `secs` seconds between connection attempts. -/
  | sleep (secs : Nat)
  /-- Acquisition of a session-scoped advisory lock keyed by `key`.
      Included in the operation alphabet so that specification claims about
      advisory locking are statable; the source never issues it. -/
  | advisoryLock (key : Int)
  /-- The `SELECT COUNT(*) FROM pg_catalog.pg_database WHERE datname = $1`
      existence query for database `db`. -/
  | queryDbCount (db : String)
  /-- The `CREATE DATABASE db` statement issued by `create_database`. -/
  | createDatabase (db : String)
  /-- The `information_schema.schemata` query for the `schemato` schema. -/
  | querySchema
  /-- The `create_schema` transaction batch (schema, table, trigger, and the
      baseline version-0 row). -/
  | createSchemaTxn
  /-- The `SELECT version FROM schemato.versions` ledger query. -/
  | queryInstalled
  /-- The `info!("installed: ...")` log for an already-installed version. -/
  | noteInstalled (ver : Int)
  /-- `std::fs::read_to_string` of the migration file at `path`. -/
  | readFile (path : String)
  /-- `conn.transaction()` — opening a transaction. -/
  | beginTxn
  /-- `t.batch_execute` of the SQL body of migration version `ver`. -/
  | batchExec (ver : Int)
  /-- The `INSERT INTO schemato.versions` ledger row for version `ver`. -/
  | insertVersion (ver : Int)
  /-- `t.set_rollback()` — the transaction will be rolled back on drop. -/
  | rollback
  /-- `t.commit()`. -/
  | commit
  deriving DecidableEq, Repr

/-- Process outcome: `success` = exit status 0, `fatal` = non-zero exit
(`std::process::exit(1)` or a panicking `unwrap`). -/
inductive RunResult where
  | success
  | fatal
  deriving DecidableEq, Repr

/-- Outcome of one `apply` call: `ok` means control returns to the caller's
loop, `fatal` means the process terminates with non-zero status. -/
inductive StepResult where
  | ok
  | fatal
  deriving DecidableEq, Repr

/-- `2^32`, the modulus of Rust `u32` arithmetic. -/
def u32Mod : Nat := 2 ^ 32

/-- The attempt numbers iterated by `for attempt in 1..attempts + 1` in
`connect_loop`.  The bound `attempts + 1` is `u32` arithmetic, so it wraps at
`2^32` (release-mode Rust semantics): for `attempts = u32::MAX` the range is
`1..0`, which is empty. -/
def attemptList (attempts : Nat) : List Nat :=
  List.range' 1 ((attempts + 1) % u32Mod - 1)

/-- The body of `connect_loop`'s `for` loop over the remaining attempt
numbers.  `outcome a = true` means `connect_postgres` succeeds on attempt `a`.
Returns the emitted operations and `some a` when attempt `a` connected, else
`none`.  A failed attempt sleeps `backoff` seconds unless `a = attempts`. -/
def connect_go (db : String) (outcome : Nat → Bool) (attempts backoff : Nat) :
    List Nat → List Op × Option Nat
  | [] => ([], none)
  | a :: rest =>
    if outcome a then
      ([Op.connectAttempt db a], some a)
    else
      let r := connect_go db outcome attempts backoff rest
      (Op.connectAttempt db a ::
        ((if a = attempts then [] else [Op.sleep backoff]) ++ r.1), r.2)

/-- `connect_loop(host, port, user, pass, db, attempts, backoff)`:
bounded-retry connection supervisor (src/src/main.rs:318-342). -/
def connect_loop (db : String) (outcome : Nat → Bool) (attempts backoff : Nat) :
    List Op × Option Nat :=
  connect_go db outcome attempts backoff (attemptList attempts)

/-- The tuple order Rust's `Vec::<(i32, String)>::sort` sorts by:
lexicographic on `(version, filename)`. -/
def catLe (a b : Int × String) : Prop :=
  a.1 < b.1 ∨ (a.1 = b.1 ∧ a.2 ≤ b.2)

instance : DecidableRel catLe := fun a b => by
  unfold catLe; infer_instance

/-- The sort on line 152: stable sort of the discovered `(version, filename)`
pairs by the derived tuple order. -/
def sortSchemata (l : List (Int × String)) : List (Int × String) :=
  l.mergeSort (fun a b => decide (catLe a b))

/-- Lines 151-155: the catalog is the discovered list, sorted when
non-empty (an empty result only warns). -/
def catalogOf (l : List (Int × String)) : List (Int × String) :=
  if l.length > 0 then sortSchemata l else l

/-- The outside world's answers for one run, together with the run's
configuration (the fields of `RunConfig` the engine consults). -/
structure Env where
  /-- Target database name (positional argument). -/
  dbName : String
  /-- Schemata directory path (`prefix`). -/
  schemataDir : String
  /-- `(version, filename)` pairs produced by the glob scan, in filesystem
      enumeration order (entries whose enumeration errored are skipped with a
      warning and never reach this list). -/
  discovered : List (Int × String)
  /-- Configured connection attempts (a `u32` value). -/
  attempts : Nat
  /-- Configured backoff seconds (a `u64` value). -/
  backoff : Nat
  /-- The `--force` flag. -/
  force : Bool
  /-- Outcome of the n-th connection attempt of the administrative
      (database-less) connection. -/
  adminOutcome : Nat → Bool
  /-- Outcome of the n-th connection attempt of the target-database
      connection. -/
  targetOutcome : Nat → Bool
  /-- Result of the database-existence count query (`Err` or the count). -/
  dbCountQuery : Except Unit Int
  /-- Whether the `CREATE DATABASE` statement succeeds. -/
  createDbOk : Bool
  /-- Result of the schema-existence query (`Err` or the row count). -/
  schemaRows : Except Unit Nat
  /-- Whether the `create_schema` transaction batch succeeds. -/
  createSchemaOk : Bool
  /-- Whether `conn.transaction()` succeeds (its failure panics the
      unwrap). -/
  beginTxnOk : Bool
  /-- Result of the installed-versions ledger query (`Err` or the version
      column of the returned rows). -/
  installedQuery : Except Unit (List Int)
  /-- Result of `std::fs::read_to_string` on a path: `Err` or the SQL body. -/
  fileContents : String → Except Unit String
  /-- Whether `t.batch_execute` on a given SQL body succeeds. -/
  batchExecOk : String → Bool
  /-- Whether the ledger `INSERT` for a given version succeeds. -/
  insertOk : Int → Bool
  /-- Whether `t.commit()` succeeds (its failure panics the unwrap). -/
  commitOk : Bool

/-- `apply(conn, ver, prefix, path, force)` (src/src/main.rs:402-439): read
the file, run its body in a transaction, record the version, commit.
Returns the issued operations, the list of versions durably recorded in the
ledger by this call (a transaction's insert persists only when the commit
succeeds), and whether control returns to the caller's loop. -/
def apply (env : Env) (ver : Int) (path : String) :
    List Op × List Int × StepResult :=
  match env.fileContents (env.schemataDir ++ "/" ++ path) with
  | .error _ =>
    if env.force then
      ([Op.readFile (env.schemataDir ++ "/" ++ path)], [], .ok)
    else
      ([Op.readFile (env.schemataDir ++ "/" ++ path)], [], .fatal)
  | .ok body =>
    if env.beginTxnOk then
      if env.batchExecOk body then
        if env.insertOk ver then
          if env.commitOk then
            ([Op.readFile (env.schemataDir ++ "/" ++ path), Op.beginTxn,
              Op.batchExec ver, Op.insertVersion ver, Op.commit], [ver], .ok)
          else
            ([Op.readFile (env.schemataDir ++ "/" ++ path), Op.beginTxn,
              Op.batchExec ver, Op.insertVersion ver, Op.commit], [], .fatal)
        else
          ([Op.readFile (env.schemataDir ++ "/" ++ path), Op.beginTxn,
            Op.batchExec ver, Op.insertVersion ver], [], .fatal)
      else
        if env.force then
          ([Op.readFile (env.schemataDir ++ "/" ++ path), Op.beginTxn,
            Op.batchExec ver, Op.rollback], [], .ok)
        else
          ([Op.readFile (env.schemataDir ++ "/" ++ path), Op.beginTxn,
            Op.batchExec ver], [], .fatal)
    else
      ([Op.readFile (env.schemataDir ++ "/" ++ path), Op.beginTxn], [], .fatal)

/-- The applier loop (src/src/main.rs:251-257): for each catalog entry, skip
it with a log line when its version is in the ledger, else `apply` it; a
fatal `apply` ends the process.  Returns the issued operations, the versions
durably recorded, and the process outcome. -/
def runCatalog (env : Env) (installed : List Int) :
    List (Int × String) → List Op × List Int × RunResult
  | [] => ([], [], .success)
  | (v, f) :: rest =>
    if v ∈ installed then
      let r := runCatalog env installed rest
      (Op.noteInstalled v :: r.1, r.2.1, r.2.2)
    else
      let a := apply env v f
      match a.2.2 with
      | .fatal => (a.1, a.2.1, .fatal)
      | .ok =>
        let r := runCatalog env installed rest
        (a.1 ++ r.1, a.2.1 ++ r.2.1, r.2.2)

/-- The database-existence check and creation (src/src/main.rs:173-200 and
`create_database`, lines 360-365): query the count of `pg_database` rows for
the target name; `0` → issue `CREATE DATABASE` (its failure is fatal); `1` →
log and continue; a query error or any other count → fatal. -/
def dbExistencePhase (env : Env) : List Op × RunResult :=
  match env.dbCountQuery with
  | .error _ => ([Op.queryDbCount env.dbName], .fatal)
  | .ok c =>
    if c = 0 then
      if env.createDbOk then
        ([Op.queryDbCount env.dbName, Op.createDatabase env.dbName],
          .success)
      else
        ([Op.queryDbCount env.dbName, Op.createDatabase env.dbName], .fatal)
    else if c = 1 then ([Op.queryDbCount env.dbName], .success)
    else ([Op.queryDbCount env.dbName], .fatal)

/-- The bookkeeping-schema check and creation (src/src/main.rs:209-228 and
`create_schema`, lines 367-400): query `information_schema.schemata`; when no
row comes back, create the schema, table, trigger and baseline row 0 in one
transaction and commit it.  Every failure here is fatal.  Returns the issued
operations, the versions durably recorded (the baseline row 0 on success),
and the outcome. -/
def schemaPhase (env : Env) : List Op × List Int × RunResult :=
  match env.schemaRows with
  | .error _ => ([Op.querySchema], [], .fatal)
  | .ok n =>
    if n < 1 then
      if env.beginTxnOk then
        if env.createSchemaOk then
          if env.commitOk then
            ([Op.querySchema, Op.beginTxn, Op.createSchemaTxn, Op.commit],
              [0], .success)
          else
            ([Op.querySchema, Op.beginTxn, Op.createSchemaTxn, Op.commit],
              [], .fatal)
        else ([Op.querySchema, Op.beginTxn, Op.createSchemaTxn], [], .fatal)
      else ([Op.querySchema, Op.beginTxn], [], .fatal)
    else ([Op.querySchema], [], .success)

/-- The whole run, `main` after argument parsing (src/src/main.rs:137-261):
catalog discovery and sort, administrative connection, database existence
check and creation, target connection (with a fixed attempt budget of 1),
schema bootstrap, ledger load, and the applier loop.  Returns the issued
operations, the versions durably recorded in the ledger (the baseline row 0
when the bookkeeping schema is created, plus applied migrations), and the
process outcome. -/
def schematoMain (env : Env) : List Op × List Int × RunResult :=
  let schemata := catalogOf env.discovered
  let adminC := connect_loop "" env.adminOutcome env.attempts env.backoff
  match adminC.2 with
  | none => (adminC.1, [], .fatal)
  | some _ =>
    let db := dbExistencePhase env
    match db.2 with
    | .fatal => (adminC.1 ++ db.1, [], .fatal)
    | .success =>
      let tgtC := connect_loop env.dbName env.targetOutcome 1 env.backoff
      match tgtC.2 with
      | none => (adminC.1 ++ db.1 ++ tgtC.1, [], .fatal)
      | some _ =>
        let sp := schemaPhase env
        match sp.2.2 with
        | .fatal => (adminC.1 ++ db.1 ++ tgtC.1 ++ sp.1, [], .fatal)
        | .success =>
          match env.installedQuery with
          | .error _ =>
            (adminC.1 ++ db.1 ++ tgtC.1 ++ sp.1 ++ [Op.queryInstalled],
              sp.2.1, .fatal)
          | .ok installed =>
            let loop := runCatalog env installed schemata
            (adminC.1 ++ db.1 ++ tgtC.1 ++ sp.1 ++ [Op.queryInstalled]
                ++ loop.1,
              sp.2.1 ++ loop.2.1, loop.2.2)

/-- Is this operation an advisory-lock acquisition? -/
def isLockOp : Op → Bool
  | .advisoryLock _ => true
  | _ => false

/-- Is this operation a connection attempt (for any database)? -/
def isAttempt : Op → Bool
  | .connectAttempt _ _ => true
  | _ => false

/-- Is this operation a connection attempt for database `db`? -/
def isAttemptFor (db : String) : Op → Bool
  | .connectAttempt d _ => d == db
  | _ => false

/-- Is this operation a sleep? -/
def isSleep : Op → Bool
  | .sleep _ => true
  | _ => false

/-- Is this operation a database write (in the sense of the idempotence
guarantee): creating the database or bookkeeping schema, executing a
migration body, inserting a ledger row, or committing a transaction? -/
def isWriteOp : Op → Bool
  | .createDatabase _ => true
  | .createSchemaTxn => true
  | .batchExec _ => true
  | .insertVersion _ => true
  | .commit => true
  | _ => false

/-- Is this operation a file read? -/
def isReadOp : Op → Bool
  | .readFile _ => true
  | _ => false

/-- Is this operation anything issued against the database inside `apply`
(opening a transaction, executing a batch, inserting, rolling back, or
committing)? -/
def isDbStatementOp : Op → Bool
  | .beginTxn => true
  | .batchExec _ => true
  | .insertVersion _ => true
  | .rollback => true
  | .commit => true
  | _ => false

/-- Is this operation a `CREATE DATABASE` for database `db`? -/
def isCreateDbFor (db : String) : Op → Bool
  | .createDatabase d => d == db
  | _ => false

/-! ### The catalog order -/

theorem catLe_trans {a b c : Int × String} (h1 : catLe a b) (h2 : catLe b c) :
    catLe a c := by
  rcases h1 with h1 | ⟨e1, s1⟩ <;> rcases h2 with h2 | ⟨e2, s2⟩
  · exact Or.inl (lt_trans h1 h2)
  · exact Or.inl (e2 ▸ h1)
  · exact Or.inl (e1 ▸ h2)
  · exact Or.inr ⟨e1.trans e2, le_trans s1 s2⟩

theorem catLe_total (a b : Int × String) : catLe a b ∨ catLe b a := by
  rcases lt_trichotomy a.1 b.1 with h | h | h
  · exact Or.inl (Or.inl h)
  · rcases le_total a.2 b.2 with hs | hs
    · exact Or.inl (Or.inr ⟨h, hs⟩)
    · exact Or.inr (Or.inr ⟨h.symm, hs⟩)
  · exact Or.inr (Or.inl h)

theorem catLe_antisymm {a b : Int × String} (h1 : catLe a b) (h2 : catLe b a) :
    a = b := by
  rcases h1 with h1 | ⟨e1, s1⟩ <;> rcases h2 with h2 | ⟨e2, s2⟩
  · exact absurd h2 (lt_asymm h1)
  · exact absurd h1 (e2 ▸ lt_irrefl a.1)
  · exact absurd h2 (e1 ▸ lt_irrefl a.1)
  · exact Prod.ext e1 (le_antisymm s1 s2)

instance : IsAntisymm (Int × String) catLe := ⟨fun _ _ => catLe_antisymm⟩

theorem sortSchemata_perm (l : List (Int × String)) : (sortSchemata l).Perm l :=
  List.mergeSort_perm l _

theorem sortSchemata_sorted (l : List (Int × String)) :
    (sortSchemata l).Pairwise catLe := by
  have h := @List.sorted_mergeSort (Int × String)
    (fun a b => decide (catLe a b))
    (fun a b c h1 h2 => by
      simp only [decide_eq_true_eq] at *
      exact catLe_trans h1 h2)
    (fun a b => by
      simp only [Bool.or_eq_true, decide_eq_true_eq]
      exact catLe_total a b) l
  exact h.imp (fun hab => by simpa using hab)

theorem catalogOf_perm (l : List (Int × String)) : (catalogOf l).Perm l := by
  unfold catalogOf
  split
  · exact sortSchemata_perm l
  · exact List.Perm.refl l

theorem catalogOf_sorted (l : List (Int × String)) :
    (catalogOf l).Pairwise catLe := by
  unfold catalogOf
  split
  · exact sortSchemata_sorted l
  · rename_i h
    have : l = [] := by
      cases l with
      | nil => rfl
      | cons a t => simp at h
    simp [this]

/-- The catalog produced from two enumerations of the same entry set is the
same list (the sort key is the whole tuple and the order is antisymmetric). -/
theorem catalogOf_perm_invariant {l l' : List (Int × String)}
    (h : l.Perm l') : catalogOf l = catalogOf l' := by
  have hs : (catalogOf l).Pairwise catLe := catalogOf_sorted l
  have hs' : (catalogOf l').Pairwise catLe := catalogOf_sorted l'
  exact List.eq_of_perm_of_sorted
    (((catalogOf_perm l).trans h).trans (catalogOf_perm l').symm) hs hs'

/-! ### The connection supervisor -/

theorem attemptList_eq (attempts : Nat) (h : attempts + 1 < u32Mod) :
    attemptList attempts = List.range' 1 attempts := by
  unfold attemptList
  rw [Nat.mod_eq_of_lt h]
  simp

theorem connect_go_any_eq_false (db : String) (outcome : Nat → Bool)
    (attempts backoff : Nat) (p : Op → Bool)
    (h1 : ∀ n, p (Op.connectAttempt db n) = false)
    (h2 : p (Op.sleep backoff) = false)
    (l : List Nat) :
    (connect_go db outcome attempts backoff l).1.any p = false := by
  induction l with
  | nil => simp [connect_go]
  | cons a rest ih =>
    simp only [connect_go]
    by_cases h : outcome a
    · simp [h, h1]
    · rw [if_neg h]
      by_cases ha : a = attempts <;>
        simp [ha, List.any_append, h1, h2, ih]

theorem connect_go_all_fail (db : String) (outcome : Nat → Bool)
    (attempts backoff : Nat) (hfail : ∀ a, outcome a = false) :
    ∀ (k s : Nat),
      (connect_go db outcome attempts backoff (List.range' s k)).2 = none ∧
      (connect_go db outcome attempts backoff (List.range' s k)).1.countP
        isAttempt = k := by
  intro k
  induction k with
  | zero => intro s; simp [connect_go]
  | succ m ih =>
    intro s
    rw [List.range'_succ]
    simp only [connect_go, hfail s, Bool.false_eq_true, if_false]
    refine ⟨(ih (s + 1)).1, ?_⟩
    have hm := (ih (s + 1)).2
    by_cases ha : s = attempts
    · subst ha
      simp [List.countP_cons, List.countP_append, isAttempt, hm]
    · simp [ha, List.countP_cons, List.countP_append, isAttempt, isSleep, hm]

theorem connect_go_all_fail_sleeps (db : String) (outcome : Nat → Bool)
    (attempts backoff : Nat) (hfail : ∀ a, outcome a = false) :
    ∀ (k s : Nat), s + k = attempts + 1 →
      (connect_go db outcome attempts backoff (List.range' s k)).1.filter
        isSleep = List.replicate (k - 1) (Op.sleep backoff) := by
  intro k
  induction k with
  | zero => intro s _; simp [connect_go]
  | succ m ih =>
    intro s hs
    rw [List.range'_succ]
    simp only [connect_go, hfail s, Bool.false_eq_true, if_false]
    cases m with
    | zero =>
      have : s = attempts := by omega
      simp [this, List.filter_cons, isSleep, connect_go]
    | succ m' =>
      have hne : s ≠ attempts := by omega
      have := ih (s + 1) (by omega)
      simp [hne, List.filter_cons, List.filter_append, isSleep, this,
        List.replicate_succ]

theorem connect_go_first_success (db : String) (outcome : Nat → Bool)
    (attempts backoff t : Nat)
    (hbefore : ∀ a, a < t → outcome a = false) (ht : outcome t = true)
    (hta : t ≤ attempts) :
    ∀ (k s : Nat), s ≤ t → t < s + k →
      (connect_go db outcome attempts backoff (List.range' s k)).2 = some t ∧
      (connect_go db outcome attempts backoff (List.range' s k)).1.countP
        isAttempt = t - s + 1 ∧
      (connect_go db outcome attempts backoff (List.range' s k)).1.filter
        isSleep = List.replicate (t - s) (Op.sleep backoff) := by
  intro k
  induction k with
  | zero => intro s h1 h2; omega
  | succ m ih =>
    intro s h1 h2
    rw [List.range'_succ]
    by_cases hst : s = t
    · subst hst
      simp [connect_go, ht, List.countP_cons, isAttempt, isSleep]
    · have hlt : s < t := by omega
      have hne : s ≠ attempts := by omega
      have hr := ih (s + 1) (by omega) (by omega)
      simp only [connect_go, hbefore s hlt, Bool.false_eq_true, if_false,
        hne, if_false]
      refine ⟨hr.1, ?_, ?_⟩
      · simp [List.countP_cons, List.countP_append, isAttempt, isSleep,
          hr.2.1]
        omega
      · have hts : t - s = (t - (s + 1)) + 1 := by omega
        simp [List.filter_cons, List.filter_append, isSleep, hr.2.2, hts,
          List.replicate_succ]

/-- C6 (counterexample): with an attempt budget of `u32::MAX = 2^32 - 1` and
a server that always refuses, `connect_loop` makes zero attempts (the wrapped
loop bound `attempts + 1` is `0`, so the range `1..0` is empty), not the
`2^32 - 1` attempts the claim requires. -/
theorem connect_loop_wrap_counterexample :
    1 ≤ u32Mod - 1 ∧
    (connect_loop "" (fun _ => false) (u32Mod - 1) 2).1.countP isAttempt
      = 0 ∧
    (connect_loop "" (fun _ => false) (u32Mod - 1) 2).1.countP isAttempt
      ≠ u32Mod - 1 := by
  have h : attemptList (u32Mod - 1) = [] := by
    unfold attemptList u32Mod
    norm_num
  refine ⟨by norm_num [u32Mod], ?_, ?_⟩ <;>
    simp [connect_loop, h, connect_go, u32Mod]

/-- C6 (amended): for every attempt budget `N` with `1 ≤ N ≤ 2^32 - 2` and
backoff `B`: if every connection attempt fails, `connect_loop` makes exactly
`N` attempts with `N - 1` sleeps of `B` seconds and returns `none`
(exhausted); if the first successful attempt is `t ≤ N`, the connection is
returned at attempt `t` with exactly `t` attempts and `t - 1` sleeps, i.e.
immediately, with no further attempts or sleeps. -/
theorem connect_loop_retry (db : String) (outcome : Nat → Bool)
    (N backoff : Nat) (h1 : 1 ≤ N) (h2 : N + 1 < u32Mod) :
    ((∀ a, outcome a = false) →
      (connect_loop db outcome N backoff).2 = none ∧
      (connect_loop db outcome N backoff).1.countP isAttempt = N ∧
      (connect_loop db outcome N backoff).1.filter isSleep
        = List.replicate (N - 1) (Op.sleep backoff)) ∧
    (∀ t, 1 ≤ t → t ≤ N → (∀ a, a < t → outcome a = false) →
      outcome t = true →
      (connect_loop db outcome N backoff).2 = some t ∧
      (connect_loop db outcome N backoff).1.countP isAttempt = t ∧
      (connect_loop db outcome N backoff).1.filter isSleep
        = List.replicate (t - 1) (Op.sleep backoff)) := by
  have hl : attemptList N = List.range' 1 N := attemptList_eq N h2
  unfold connect_loop
  rw [hl]
  constructor
  · intro hfail
    have ha := connect_go_all_fail db outcome N backoff hfail N 1
    have hs := connect_go_all_fail_sleeps db outcome N backoff hfail N 1
      (by omega)
    exact ⟨ha.1, ha.2, hs⟩
  · intro t ht1 htN hbefore ht
    have h := connect_go_first_success db outcome N backoff t hbefore ht htN
      N 1 (by omega) (by omega)
    have e1 : t - 1 + 1 = t := by omega
    refine ⟨h.1, ?_, ?_⟩
    · rw [h.2.1]; omega
    · rw [h.2.2]

/-- Witness for `connect_loop_retry`: budget 3, always-refusing server. -/
theorem connect_loop_retry_witness :
    (connect_loop "x" (fun _ => false) 3 2).2 = none ∧
    (connect_loop "x" (fun _ => false) 3 2).1.countP isAttempt = 3 ∧
    (connect_loop "x" (fun _ => false) 3 2).1.filter isSleep
      = List.replicate 2 (Op.sleep 2) :=
  (connect_loop_retry "x" (fun _ => false) 3 2 (by norm_num)
    (by norm_num [u32Mod])).1 (fun _ => rfl)

/-- C7 (counterexample): with a configured attempts value of `0`,
`connect_loop` makes zero connection attempts — even against a server that
would accept — and returns the exhausted signal; there is no minimum of 1. -/
theorem connect_loop_zero_counterexample :
    (connect_loop "db" (fun _ => true) 0 5).1.countP isAttempt = 0 ∧
    (connect_loop "db" (fun _ => true) 0 5).2 = none := by
  constructor <;> rfl

/-- C7 (amended): for every configured attempts value `N` with
`1 ≤ N ≤ 2^32 - 2`, the connection supervisor makes at least one connection
attempt; for `N = 0` it makes none. -/
theorem connect_loop_min_one_attempt (db : String) (outcome : Nat → Bool)
    (N backoff : Nat) (h1 : 1 ≤ N) (h2 : N + 1 < u32Mod) :
    (1 ≤ (connect_loop db outcome N backoff).1.countP isAttempt) ∧
    (connect_loop db outcome 0 backoff).1.countP isAttempt = 0 := by
  refine ⟨?_, by rfl⟩
  unfold connect_loop
  rw [attemptList_eq N h2]
  obtain ⟨m, rfl⟩ : ∃ m, N = m + 1 := ⟨N - 1, by omega⟩
  rw [List.range'_succ]
  by_cases h : outcome 1 <;>
    simp [connect_go, h, List.countP_cons, isAttempt]

/-- Witness for `connect_loop_min_one_attempt`: budget 5. -/
theorem connect_loop_min_one_attempt_witness :
    (1 ≤ (connect_loop "x" (fun _ => true) 5 2).1.countP isAttempt) ∧
    (connect_loop "x" (fun _ => true) 0 2).1.countP isAttempt = 0 :=
  connect_loop_min_one_attempt "x" (fun _ => true) 5 2 (by norm_num)
    (by norm_num [u32Mod])

/-! ### Trace shape lemmas -/

theorem connect_loop_any_eq_false (db : String) (outcome : Nat → Bool)
    (attempts backoff : Nat) (p : Op → Bool)
    (h1 : ∀ n, p (Op.connectAttempt db n) = false)
    (h2 : p (Op.sleep backoff) = false) :
    (connect_loop db outcome attempts backoff).1.any p = false :=
  connect_go_any_eq_false db outcome attempts backoff p h1 h2 _

theorem apply_any_eq_false (env : Env) (ver : Int) (path : String)
    (p : Op → Bool)
    (hread : ∀ s, p (Op.readFile s) = false)
    (hbegin : p Op.beginTxn = false)
    (hbatch : ∀ v, p (Op.batchExec v) = false)
    (hins : ∀ v, p (Op.insertVersion v) = false)
    (hroll : p Op.rollback = false)
    (hcommit : p Op.commit = false) :
    (apply env ver path).1.any p = false := by
  unfold apply
  split <;> split_ifs <;>
    simp [hread, hbegin, hbatch, hins, hroll, hcommit]

theorem runCatalog_any_eq_false (env : Env) (p : Op → Bool)
    (hnote : ∀ v, p (Op.noteInstalled v) = false)
    (happly : ∀ v f, (apply env v f).1.any p = false) :
    ∀ (installed : List Int) (cat : List (Int × String)),
      (runCatalog env installed cat).1.any p = false := by
  intro installed cat
  induction cat with
  | nil => simp [runCatalog]
  | cons a rest ih =>
    obtain ⟨v, f⟩ := a
    simp only [runCatalog]
    split
    · simp [hnote, ih]
    · split
      · rename_i heq
        simpa using happly v f
      · simp [List.any_append, happly v f, ih]

theorem dbExistencePhase_any_eq_false (env : Env) (p : Op → Bool)
    (hqdb : ∀ db, p (Op.queryDbCount db) = false)
    (hcdb : ∀ db, p (Op.createDatabase db) = false) :
    (dbExistencePhase env).1.any p = false := by
  unfold dbExistencePhase
  split
  · simp [hqdb]
  · split_ifs <;> simp [hqdb, hcdb]

theorem schemaPhase_any_eq_false (env : Env) (p : Op → Bool)
    (hqs : p Op.querySchema = false)
    (hbegin : p Op.beginTxn = false)
    (hcs : p Op.createSchemaTxn = false)
    (hcommit : p Op.commit = false) :
    (schemaPhase env).1.any p = false := by
  unfold schemaPhase
  split
  · simp [hqs]
  · split_ifs <;> simp [hqs, hbegin, hcs, hcommit]

/-- Every operation `schematoMain` can emit satisfies one of the
constructors below; a predicate false on all of them is false on the whole
trace. -/
theorem schematoMain_any_eq_false (env : Env) (p : Op → Bool)
    (hconn : ∀ db n, p (Op.connectAttempt db n) = false)
    (hsleep : p (Op.sleep env.backoff) = false)
    (hqdb : ∀ db, p (Op.queryDbCount db) = false)
    (hcdb : ∀ db, p (Op.createDatabase db) = false)
    (hqs : p Op.querySchema = false)
    (hcs : p Op.createSchemaTxn = false)
    (hqi : p Op.queryInstalled = false)
    (hnote : ∀ v, p (Op.noteInstalled v) = false)
    (hread : ∀ s, p (Op.readFile s) = false)
    (hbegin : p Op.beginTxn = false)
    (hbatch : ∀ v, p (Op.batchExec v) = false)
    (hins : ∀ v, p (Op.insertVersion v) = false)
    (hroll : p Op.rollback = false)
    (hcommit : p Op.commit = false) :
    (schematoMain env).1.any p = false := by
  have hA : ∀ db o a, (connect_loop db o a env.backoff).1.any p = false :=
    fun db o a => connect_loop_any_eq_false db o a env.backoff p (hconn db)
      hsleep
  have hR : ∀ installed cat,
      (runCatalog env installed cat).1.any p = false :=
    runCatalog_any_eq_false env p hnote
      (fun v f => apply_any_eq_false env v f p hread hbegin hbatch hins
        hroll hcommit)
  have hDb : (dbExistencePhase env).1.any p = false :=
    dbExistencePhase_any_eq_false env p hqdb hcdb
  have hSp : (schemaPhase env).1.any p = false :=
    schemaPhase_any_eq_false env p hqs hbegin hcs hcommit
  unfold schematoMain
  generalize catalogOf env.discovered = cat
  cases hAdm : (connect_loop "" env.adminOutcome env.attempts env.backoff).2
    <;> simp only [hAdm]
  · simpa using hA "" env.adminOutcome env.attempts
  cases hD : (dbExistencePhase env).2 <;> simp only [hD]
  case some.fatal => simp [List.any_append, hA, hDb]
  cases hTgt : (connect_loop env.dbName env.targetOutcome 1 env.backoff).2
    <;> simp only [hTgt]
  · simp [List.any_append, hA, hDb]
  cases hS : (schemaPhase env).2.2 <;> simp only [hS]
  case some.success.some.fatal => simp [List.any_append, hA, hDb, hSp]
  cases hI : env.installedQuery <;> simp only [hI] <;>
    simp [List.any_append, hA, hR, hDb, hSp, hqi]

/-! ### Concrete environments for counterexamples and witnesses -/

/-- A happy-path environment: both connections succeed on the first attempt,
the database and bookkeeping schema exist, versions 0 and 1 are installed,
and version 2 is pending with a readable, executable body. -/
def envHappy : Env where
  dbName := "app"
  schemataDir := "sql"
  discovered := [(2, "0002.sql"), (1, "0001.sql")]
  attempts := 3
  backoff := 2
  force := false
  adminOutcome := fun _ => true
  targetOutcome := fun _ => true
  dbCountQuery := .ok 1
  createDbOk := true
  schemaRows := .ok 1
  createSchemaOk := true
  beginTxnOk := true
  installedQuery := .ok [0, 1]
  fileContents := fun _ => .ok "CREATE TABLE t (x INTEGER);"
  batchExecOk := fun _ => true
  insertOk := fun _ => true
  commitOk := true

/-! ### C1: advisory lock -/

/-- C1 (counterexample): the claim, that every run acquires a session-scoped
advisory lock immediately after each connection and before any existence
check, is false on the code.  In a concrete run that establishes both
connections and issues both existence checks (and even applies a migration),
the trace contains no advisory-lock acquisition whatsoever. -/
theorem run_without_lock_counterexample :
    (schematoMain envHappy).1.any isLockOp = false ∧
    Op.queryDbCount "app" ∈ (schematoMain envHappy).1 ∧
    Op.querySchema ∈ (schematoMain envHappy).1 := by
  refine ⟨by decide, by decide, by decide⟩

/-- C1 (amended): the engine never acquires an advisory lock on any
connection; existence checks and mutations are issued directly after each
connection is established, with no lock acquisition anywhere in the run. -/
theorem no_advisory_lock_ever (env : Env) :
    (schematoMain env).1.any isLockOp = false :=
  schematoMain_any_eq_false env isLockOp (fun _ _ => rfl) rfl (fun _ => rfl)
    (fun _ => rfl) rfl rfl rfl (fun _ => rfl) (fun _ => rfl) rfl
    (fun _ => rfl) (fun _ => rfl) rfl rfl

/-! ### C2: skip-on-installed / idempotence -/

theorem runCatalog_all_installed (env : Env) (inst : List Int) :
    ∀ cat, (∀ x ∈ cat, x.1 ∈ inst) →
      runCatalog env inst cat
        = (cat.map (fun x => Op.noteInstalled x.1), [], .success) := by
  intro cat
  induction cat with
  | nil => intro _; simp [runCatalog]
  | cons a rest ih =>
    intro h
    obtain ⟨v, f⟩ := a
    have hv : v ∈ inst := h (v, f) (List.mem_cons_self _ _)
    simp only [runCatalog, if_pos hv]
    rw [ih (fun x hx => h x (List.mem_cons_of_mem _ hx))]
    simp

/-- Every operation `apply` can emit: the read of its own file, transaction
control, the batch execution of its own version, and its own ledger
insert. -/
theorem apply_mem_shape (env : Env) (v : Int) (f : String) :
    ∀ op ∈ (apply env v f).1,
      op = Op.readFile (env.schemataDir ++ "/" ++ f) ∨ op = Op.beginTxn ∨
      op = Op.batchExec v ∨ op = Op.insertVersion v ∨ op = Op.rollback ∨
      op = Op.commit := by
  intro op hop
  unfold apply at hop
  split at hop <;> split_ifs at hop <;> simp at hop <;> tauto

/-- `apply` records no version other than its own. -/
theorem apply_recorded_shape (env : Env) (v : Int) (f : String) :
    ∀ x ∈ (apply env v f).2.1, x = v := by
  intro x hx
  unfold apply at hx
  split at hx <;> split_ifs at hx <;> simp at hx <;> tauto

/-- Every operation in the applier loop's trace is either the "installed"
log line of an installed version, or belongs to the `apply` call of a
pending (not-installed) catalog entry. -/
theorem runCatalog_mem_cases (env : Env) (inst : List Int) :
    ∀ (cat : List (Int × String)) (op : Op),
      op ∈ (runCatalog env inst cat).1 →
      (∃ v, v ∈ inst ∧ op = Op.noteInstalled v) ∨
      (∃ v f, (v, f) ∈ cat ∧ v ∉ inst ∧ op ∈ (apply env v f).1) := by
  intro cat
  induction cat with
  | nil =>
    intro op hop
    simp [runCatalog] at hop
  | cons a rest ih =>
    intro op hop
    obtain ⟨v, f⟩ := a
    by_cases hv : v ∈ inst
    · simp only [runCatalog, if_pos hv] at hop
      rcases List.mem_cons.mp hop with h | h
      · exact Or.inl ⟨v, hv, h⟩
      · rcases ih op h with h1 | ⟨w, g, hm, hni, hop'⟩
        · exact Or.inl h1
        · exact Or.inr ⟨w, g, List.mem_cons_of_mem _ hm, hni, hop'⟩
    · simp only [runCatalog, if_neg hv] at hop
      revert hop
      cases hstep : (apply env v f).2.2 <;> intro hop
      · rcases List.mem_append.mp hop with h | h
        · exact Or.inr ⟨v, f, List.mem_cons_self _ _, hv, h⟩
        · rcases ih op h with h1 | ⟨w, g, hm, hni, hop'⟩
          · exact Or.inl h1
          · exact Or.inr ⟨w, g, List.mem_cons_of_mem _ hm, hni, hop'⟩
      · exact Or.inr ⟨v, f, List.mem_cons_self _ _, hv, hop⟩

/-- Every version the applier loop durably records belongs to a pending
(not-installed) catalog entry; in particular it is not in the ledger. -/
theorem runCatalog_recorded_pending (env : Env) (inst : List Int) :
    ∀ (cat : List (Int × String)) (v : Int),
      v ∈ (runCatalog env inst cat).2.1 → v ∉ inst := by
  intro cat
  induction cat with
  | nil =>
    intro v hv
    simp [runCatalog] at hv
  | cons a rest ih =>
    intro v hv
    obtain ⟨w, f⟩ := a
    by_cases hw : w ∈ inst
    · simp only [runCatalog, if_pos hw] at hv
      exact ih v hv
    · simp only [runCatalog, if_neg hw] at hv
      revert hv
      cases hstep : (apply env w f).2.2 <;> intro hv
      · rcases List.mem_append.mp hv with h | h
        · exact (apply_recorded_shape env w f v h) ▸ hw
        · exact ih v h
      · exact (apply_recorded_shape env w f v hv) ▸ hw

/-- C2: an entry whose version is already in the loaded installed-version
set is skipped entirely, also in mixed runs where other entries are
pending: (a) such an entry contributes exactly its "installed" log line and
the loop continues with the remaining entries unchanged — `apply` is not
invoked for it; (b) nowhere in the loop is there a batch execution, a
ledger insert, or a durably recorded version for any installed version;
(c) every file read in the loop belongs to a pending entry, so an installed
entry's file is never read; (d) consequently a run against a fully migrated
database (database and schema present, every catalog version installed)
performs zero writes and zero file reads and records nothing. -/
theorem installed_entries_skipped (env : Env) (inst : List Int)
    (cat : List (Int × String)) :
    (∀ (v : Int) (f : String) (rest : List (Int × String)), v ∈ inst →
      runCatalog env inst ((v, f) :: rest)
        = (Op.noteInstalled v :: (runCatalog env inst rest).1,
            (runCatalog env inst rest).2.1,
            (runCatalog env inst rest).2.2)) ∧
    (∀ v ∈ inst,
      Op.batchExec v ∉ (runCatalog env inst cat).1 ∧
      Op.insertVersion v ∉ (runCatalog env inst cat).1 ∧
      v ∉ (runCatalog env inst cat).2.1) ∧
    (∀ p, Op.readFile p ∈ (runCatalog env inst cat).1 →
      ∃ v f, (v, f) ∈ cat ∧ v ∉ inst ∧
        p = env.schemataDir ++ "/" ++ f) ∧
    (env.dbCountQuery = .ok 1 →
      (∃ n, env.schemaRows = .ok n ∧ 1 ≤ n) →
      env.installedQuery = .ok inst →
      (∀ x ∈ catalogOf env.discovered, x.1 ∈ inst) →
      (schematoMain env).1.any isWriteOp = false ∧
      (schematoMain env).1.any isReadOp = false ∧
      (schematoMain env).2.1 = [] ∧
      runCatalog env inst (catalogOf env.discovered)
        = ((catalogOf env.discovered).map (fun x => Op.noteInstalled x.1),
            [], .success)) := by
  refine ⟨?_, ?_, ?_, ?_⟩
  · intro v f rest hv
    simp only [runCatalog, if_pos hv]
  · intro v hv
    refine ⟨?_, ?_, ?_⟩
    · intro hmem
      rcases runCatalog_mem_cases env inst cat _ hmem with
        ⟨w, _, hw⟩ | ⟨w, g, _, hni, hop⟩
      · exact Op.noConfusion hw
      · rcases apply_mem_shape env w g _ hop with h | h | h | h | h | h <;>
          first
            | exact Op.noConfusion h
            | (injection h with h'; exact hni (h' ▸ hv))
    · intro hmem
      rcases runCatalog_mem_cases env inst cat _ hmem with
        ⟨w, _, hw⟩ | ⟨w, g, _, hni, hop⟩
      · exact Op.noConfusion hw
      · rcases apply_mem_shape env w g _ hop with h | h | h | h | h | h <;>
          first
            | exact Op.noConfusion h
            | (injection h with h'; exact hni (h' ▸ hv))
    · intro hrec
      exact (runCatalog_recorded_pending env inst cat v hrec) hv
  · intro p hmem
    rcases runCatalog_mem_cases env inst cat _ hmem with
      ⟨w, _, hw⟩ | ⟨w, g, hm, hni, hop⟩
    · exact Op.noConfusion hw
    · rcases apply_mem_shape env w g _ hop with h | h | h | h | h | h <;>
        first
          | exact Op.noConfusion h
          | (injection h with h'; exact ⟨w, g, hm, hni, h'⟩)
  · intro hdb hschema hinst hall
    have hcat := runCatalog_all_installed env inst
      (catalogOf env.discovered) hall
    have hDbPh : dbExistencePhase env
        = ([Op.queryDbCount env.dbName], .success) := by
      unfold dbExistencePhase
      rw [hdb]
      norm_num
    obtain ⟨n, hs, hn⟩ := hschema
    have hSpPh : schemaPhase env = ([Op.querySchema], [], .success) := by
      unfold schemaPhase
      rw [hs]
      have hlt : ¬ n < 1 := by omega
      simp [hlt]
    have hAW : ∀ db o a b,
        (connect_loop db o a b).1.any isWriteOp = false :=
      fun db o a b =>
        connect_loop_any_eq_false db o a b _ (fun _ => rfl) rfl
    have hAR : ∀ db o a b,
        (connect_loop db o a b).1.any isReadOp = false :=
      fun db o a b =>
        connect_loop_any_eq_false db o a b _ (fun _ => rfl) rfl
    refine ⟨?_, ?_, ?_, hcat⟩ <;>
    · unfold schematoMain
      cases hAdm :
          (connect_loop "" env.adminOutcome env.attempts env.backoff).2 <;>
        simp only [hAdm, hDbPh, hSpPh, hinst, hcat] <;>
        try (cases hTgt :
          (connect_loop env.dbName env.targetOutcome 1 env.backoff).2) <;>
        simp [List.any_append, hAW, hAR, isWriteOp, isReadOp, List.any_map,
          Function.comp] <;>
        try (intro x v s _ hx; subst hx; rfl)

/-- Witness for `installed_entries_skipped` on the mixed run of the spec's
example: versions {1, 2, 3} on disk, ledger {0, 1, 3}; version 1 is skipped
(no batch, no insert, not recorded) while version 2 is pending, and version
3's processing is unchanged by its own skip. -/
theorem installed_entries_skipped_witness :
    (Op.batchExec 1
        ∉ (runCatalog envHappy [0, 1, 3]
            [(1, "0001.sql"), (2, "0002.sql"), (3, "0003.sql")]).1 ∧
      Op.insertVersion 1
        ∉ (runCatalog envHappy [0, 1, 3]
            [(1, "0001.sql"), (2, "0002.sql"), (3, "0003.sql")]).1 ∧
      (1 : Int)
        ∉ (runCatalog envHappy [0, 1, 3]
            [(1, "0001.sql"), (2, "0002.sql"), (3, "0003.sql")]).2.1) ∧
    runCatalog envHappy [0, 1, 3] [(3, "0003.sql")]
      = (Op.noteInstalled 3 :: (runCatalog envHappy [0, 1, 3] []).1,
          (runCatalog envHappy [0, 1, 3] []).2.1,
          (runCatalog envHappy [0, 1, 3] []).2.2) :=
  ⟨(installed_entries_skipped envHappy [0, 1, 3]
      [(1, "0001.sql"), (2, "0002.sql"), (3, "0003.sql")]).2.1 1
      (by decide),
    (installed_entries_skipped envHappy [0, 1, 3]
      [(1, "0001.sql"), (2, "0002.sql"), (3, "0003.sql")]).1 3 "0003.sql"
      [] (by decide)⟩

/-! ### C3, C4, C10: the applier's failure policy -/

/-- `envHappy` with failing SQL bodies and `--force` set. -/
def envSqlFail : Env :=
  { envHappy with batchExecOk := fun _ => false, force := true }

/-- `envHappy` with a failing ledger insert. -/
def envInsFail : Env :=
  { envHappy with insertOk := fun _ => false }

/-- `envHappy` with unreadable migration files. -/
def envReadFail : Env :=
  { envHappy with fileContents := fun _ => .error () }

/-- C3: for a pending version whose SQL batch execution fails inside its
transaction: with `force = false` the process terminates with non-zero
status and the version is left unrecorded (nothing recorded, no ledger
insert issued); with `force = true` the transaction is marked for rollback,
the version is left unrecorded, and processing continues with the
subsequent catalog entries. -/
theorem sql_failure_force_semantics (env : Env) (inst : List Int) (v : Int)
    (f body : String) (rest : List (Int × String))
    (hv : v ∉ inst)
    (hread : env.fileContents (env.schemataDir ++ "/" ++ f) = .ok body)
    (htxn : env.beginTxnOk = true)
    (hbatch : env.batchExecOk body = false) :
    (env.force = false →
      runCatalog env inst ((v, f) :: rest)
        = ([Op.readFile (env.schemataDir ++ "/" ++ f), Op.beginTxn,
            Op.batchExec v], [], .fatal)) ∧
    (env.force = true →
      apply env v f
        = ([Op.readFile (env.schemataDir ++ "/" ++ f), Op.beginTxn,
            Op.batchExec v, Op.rollback], [], .ok) ∧
      runCatalog env inst ((v, f) :: rest)
        = (Op.readFile (env.schemataDir ++ "/" ++ f) :: Op.beginTxn ::
            Op.batchExec v :: Op.rollback ::
            (runCatalog env inst rest).1,
           (runCatalog env inst rest).2.1,
           (runCatalog env inst rest).2.2)) := by
  constructor
  · intro hforce
    have ha : apply env v f
        = ([Op.readFile (env.schemataDir ++ "/" ++ f), Op.beginTxn,
            Op.batchExec v], [], .fatal) := by
      unfold apply
      rw [hread]
      simp [htxn, hbatch, hforce]
    simp only [runCatalog, if_neg hv, ha]
  · intro hforce
    have ha : apply env v f
        = ([Op.readFile (env.schemataDir ++ "/" ++ f), Op.beginTxn,
            Op.batchExec v, Op.rollback], [], .ok) := by
      unfold apply
      rw [hread]
      simp [htxn, hbatch, hforce]
    refine ⟨ha, ?_⟩
    simp only [runCatalog, if_neg hv, ha]
    simp

/-- Witness for `sql_failure_force_semantics`: version 2 pending, body
fails, `--force` set; `apply` rolls back and returns control. -/
theorem sql_failure_force_semantics_witness :
    apply envSqlFail 2 "0002.sql"
      = ([Op.readFile "sql/0002.sql", Op.beginTxn, Op.batchExec 2,
          Op.rollback], [], .ok) :=
  ((sql_failure_force_semantics envSqlFail [0, 1] 2 "0002.sql"
      "CREATE TABLE t (x INTEGER);" [] (by decide) rfl rfl rfl).2 rfl).1

/-- C4: for a pending version whose SQL batch succeeds but whose ledger-row
insertion fails, the run is fatal with nothing recorded — with no hypothesis
on the `force` flag, which never downgrades this fault. -/
theorem record_failure_always_fatal (env : Env) (inst : List Int) (v : Int)
    (f body : String) (rest : List (Int × String))
    (hv : v ∉ inst)
    (hread : env.fileContents (env.schemataDir ++ "/" ++ f) = .ok body)
    (htxn : env.beginTxnOk = true)
    (hbatch : env.batchExecOk body = true)
    (hins : env.insertOk v = false) :
    runCatalog env inst ((v, f) :: rest)
      = ([Op.readFile (env.schemataDir ++ "/" ++ f), Op.beginTxn,
          Op.batchExec v, Op.insertVersion v], [], .fatal) := by
  have ha : apply env v f
      = ([Op.readFile (env.schemataDir ++ "/" ++ f), Op.beginTxn,
          Op.batchExec v, Op.insertVersion v], [], .fatal) := by
    unfold apply
    rw [hread]
    simp [htxn, hbatch, hins]
  simp only [runCatalog, if_neg hv, ha]

/-- Witness for `record_failure_always_fatal`: version 2 pending, insert
fails (with `force = false` in the environment, though the theorem needs no
assumption on it). -/
theorem record_failure_always_fatal_witness :
    runCatalog envInsFail [0, 1] [(2, "0002.sql")]
      = ([Op.readFile "sql/0002.sql", Op.beginTxn, Op.batchExec 2,
          Op.insertVersion 2], [], .fatal) :=
  record_failure_always_fatal envInsFail [0, 1] 2 "0002.sql"
    "CREATE TABLE t (x INTEGER);" [] (by decide) rfl rfl rfl rfl

/-- C10: when the migration file cannot be read, `apply` returns (with
`force`) or is fatal (without), before any transaction is opened: the only
operation issued is the file read itself — no statement reaches the
database and nothing is recorded. -/
theorem read_failure_no_statement (env : Env) (v : Int) (f : String)
    (hread : env.fileContents (env.schemataDir ++ "/" ++ f) = .error ()) :
    apply env v f
      = ([Op.readFile (env.schemataDir ++ "/" ++ f)], [],
          if env.force then StepResult.ok else StepResult.fatal) ∧
    (apply env v f).1.any isDbStatementOp = false ∧
    (apply env v f).1.any isWriteOp = false := by
  have h : apply env v f
      = ([Op.readFile (env.schemataDir ++ "/" ++ f)], [],
          if env.force then StepResult.ok else StepResult.fatal) := by
    unfold apply
    rw [hread]
    cases env.force <;> simp
  refine ⟨h, ?_, ?_⟩ <;> rw [h] <;> rfl

/-- Witness for `read_failure_no_statement`: unreadable file, no force. -/
theorem read_failure_no_statement_witness :
    apply envReadFail 2 "0002.sql"
      = ([Op.readFile "sql/0002.sql"], [], StepResult.fatal) ∧
    (apply envReadFail 2 "0002.sql").1.any isDbStatementOp = false ∧
    (apply envReadFail 2 "0002.sql").1.any isWriteOp = false :=
  read_failure_no_statement envReadFail 2 "0002.sql" rfl

/-! ### C5: catalog ordering -/

/-- C5: the catalog is a permutation of the discovered entries, sorted
ascending by the `(version, filename)` tuple (hence with non-decreasing
version numbers), and is independent of the filesystem enumeration order. -/
theorem catalog_sorted_spec (l : List (Int × String)) :
    (catalogOf l).Perm l ∧
    (catalogOf l).Pairwise catLe ∧
    (catalogOf l).Pairwise (fun a b => a.1 ≤ b.1) ∧
    ∀ l', l.Perm l' → catalogOf l = catalogOf l' := by
  refine ⟨catalogOf_perm l, catalogOf_sorted l, ?_,
    fun l' hp => catalogOf_perm_invariant hp⟩
  refine (catalogOf_sorted l).imp ?_
  intro a b hab
  rcases hab with hlt | ⟨heq, _⟩
  · exact le_of_lt hlt
  · exact le_of_eq heq

/-- Witness for `catalog_sorted_spec`: two enumeration orders of the same
two files produce the same catalog. -/
theorem catalog_sorted_spec_witness :
    ([((3 : Int), "0003.sql"), (1, "0001.sql")] : List (Int × String)).Perm
      [(1, "0001.sql"), (3, "0003.sql")] ∧
    catalogOf [((3 : Int), "0003.sql"), (1, "0001.sql")]
      = catalogOf [(1, "0001.sql"), (3, "0003.sql")] :=
  ⟨by decide,
    (catalog_sorted_spec [((3 : Int), "0003.sql"), (1, "0001.sql")]).2.2.2
      [(1, "0001.sql"), (3, "0003.sql")] (by decide)⟩

/-! ### C8: both connections and the retry mechanism -/

theorem countP_eq_zero_of_any_eq_false {p : Op → Bool} {l : List Op}
    (h : l.any p = false) : l.countP p = 0 := by
  rw [List.countP_eq_zero]
  intro a ha
  simp only [List.any_eq_false] at h
  exact h a ha

theorem connect_go_countP_self (db : String) (o : Nat → Bool) (a b : Nat) :
    ∀ l, (connect_go db o a b l).1.countP (isAttemptFor db)
      = (connect_go db o a b l).1.countP isAttempt := by
  intro l
  induction l with
  | nil => rfl
  | cons x rest ih =>
    simp only [connect_go]
    split
    · simp [List.countP_cons, isAttemptFor, isAttempt]
    · by_cases hx : x = a <;>
        simp [hx, List.countP_cons, List.countP_append, isAttemptFor,
          isAttempt, isSleep, ih]

theorem connect_loop_countP_other (db db' : String) (h : db ≠ db')
    (o : Nat → Bool) (a b : Nat) :
    (connect_loop db o a b).1.countP (isAttemptFor db') = 0 :=
  countP_eq_zero_of_any_eq_false
    (connect_loop_any_eq_false db o a b _
      (fun n => by simp [isAttemptFor, h]) rfl)

theorem connect_loop_budget_one (db : String) (o : Nat → Bool) (b : Nat) :
    (connect_loop db o 1 b).1.countP isAttempt = 1 := by
  have h : attemptList 1 = [1] := rfl
  unfold connect_loop
  rw [h]
  cases ho : o 1 <;> simp [connect_go, ho, List.countP_cons, isAttempt]

/-- `envHappy` with a target-database connection that always refuses. -/
def envTgtRefuse : Env :=
  { envHappy with targetOutcome := fun _ => false }

/-- C8 (counterexample): with a configured attempts count of 3 and a
target-database server that always refuses, the run makes exactly one
target-database connection attempt and is fatal — the reconnect on line 203
passes a fixed budget of 1, not the configured attempts count, so the
target connection is not established "using the configured attempts
count". -/
theorem target_connect_single_attempt_counterexample :
    envTgtRefuse.attempts = 3 ∧
    (schematoMain envTgtRefuse).1.countP (isAttemptFor "app") = 1 ∧
    (schematoMain envTgtRefuse).2.2 = .fatal := by
  refine ⟨rfl, by decide, by decide⟩

/-- C8 (amended): both connections go through `connect_loop` with the
configured fixed backoff (every sleep in the run is `env.backoff` seconds);
the administrative connection uses the configured attempts count (the
admin-tagged attempt operations are exactly those of its `connect_loop`
call), but the target-database connection is attempted with a fixed budget
of 1: the run never contains more than one target-tagged attempt. -/
theorem connections_retry_mechanism (env : Env) (h : env.dbName ≠ "") :
    (schematoMain env).1.countP (isAttemptFor "")
      = (connect_loop "" env.adminOutcome env.attempts
          env.backoff).1.countP isAttempt ∧
    (schematoMain env).1.countP (isAttemptFor env.dbName) ≤ 1 ∧
    (schematoMain env).1.any
      (fun op => isSleep op && !(op == Op.sleep env.backoff)) = false := by
  have hne : ¬ ("" : String) = env.dbName := fun hh => h hh.symm
  have hAdmSelf :
      (connect_loop "" env.adminOutcome env.attempts env.backoff).1.countP
        (isAttemptFor "")
      = (connect_loop "" env.adminOutcome env.attempts
          env.backoff).1.countP isAttempt :=
    connect_go_countP_self "" env.adminOutcome env.attempts env.backoff _
  have hAdmOther :
      (connect_loop "" env.adminOutcome env.attempts env.backoff).1.countP
        (isAttemptFor env.dbName) = 0 :=
    connect_loop_countP_other "" env.dbName hne env.adminOutcome
      env.attempts env.backoff
  have hTgtOther :
      (connect_loop env.dbName env.targetOutcome 1 env.backoff).1.countP
        (isAttemptFor "") = 0 :=
    connect_loop_countP_other env.dbName "" h env.targetOutcome 1
      env.backoff
  have hTgtCount :
      (connect_loop env.dbName env.targetOutcome 1 env.backoff).1.countP
        (isAttemptFor env.dbName) = 1 :=
    (connect_go_countP_self env.dbName env.targetOutcome 1 env.backoff
      _).trans (connect_loop_budget_one env.dbName env.targetOutcome
        env.backoff)
  have hApplyZ : ∀ (x : String) (v : Int) (f : String),
      (apply env v f).1.any (isAttemptFor x) = false :=
    fun x v f => apply_any_eq_false env v f _ (fun _ => rfl) rfl
      (fun _ => rfl) (fun _ => rfl) rfl rfl
  have hRunZ : ∀ (x : String) (inst : List Int) (cat : List (Int × String)),
      (runCatalog env inst cat).1.countP (isAttemptFor x) = 0 :=
    fun x inst cat => countP_eq_zero_of_any_eq_false
      (runCatalog_any_eq_false env _ (fun _ => rfl) (hApplyZ x) inst cat)
  have hDbZ : ∀ (x : String),
      (dbExistencePhase env).1.countP (isAttemptFor x) = 0 :=
    fun x => countP_eq_zero_of_any_eq_false
      (dbExistencePhase_any_eq_false env _ (fun _ => rfl) (fun _ => rfl))
  have hSpZ : ∀ (x : String),
      (schemaPhase env).1.countP (isAttemptFor x) = 0 :=
    fun x => countP_eq_zero_of_any_eq_false
      (schemaPhase_any_eq_false env _ rfl rfl rfl rfl)
  refine ⟨?_, ?_, ?_⟩
  · unfold schematoMain
    cases hAdm :
        (connect_loop "" env.adminOutcome env.attempts env.backoff).2 <;>
      simp only [hAdm] <;>
      try (cases hD : (dbExistencePhase env).2) <;>
      try (cases hTgt :
        (connect_loop env.dbName env.targetOutcome 1 env.backoff).2) <;>
      try (cases hSp : (schemaPhase env).2.2) <;>
      try (cases hI : env.installedQuery) <;>
      simp [List.countP_append, List.countP_cons, isAttemptFor, hAdmSelf,
        hTgtOther, hDbZ, hSpZ, hRunZ]
  · unfold schematoMain
    cases hAdm :
        (connect_loop "" env.adminOutcome env.attempts env.backoff).2 <;>
      simp only [hAdm] <;>
      try (cases hD : (dbExistencePhase env).2) <;>
      try (cases hTgt :
        (connect_loop env.dbName env.targetOutcome 1 env.backoff).2) <;>
      try (cases hSp : (schemaPhase env).2.2) <;>
      try (cases hI : env.installedQuery) <;>
      simp [List.countP_append, List.countP_cons, isAttemptFor, hAdmOther,
        hTgtCount, hDbZ, hSpZ, hRunZ]
  · refine schematoMain_any_eq_false env _ (fun _ _ => rfl) (by simp)
      (fun _ => rfl) (fun _ => rfl) rfl rfl rfl (fun _ => rfl)
      (fun _ => rfl) rfl (fun _ => rfl) (fun _ => rfl) rfl rfl

/-- Witness for `connections_retry_mechanism` on the happy-path
environment. -/
theorem connections_retry_mechanism_witness :
    (schematoMain envHappy).1.countP (isAttemptFor "")
      = (connect_loop "" envHappy.adminOutcome envHappy.attempts
          envHappy.backoff).1.countP isAttempt ∧
    (schematoMain envHappy).1.countP (isAttemptFor envHappy.dbName) ≤ 1 ∧
    (schematoMain envHappy).1.any
      (fun op => isSleep op && !(op == Op.sleep envHappy.backoff))
      = false :=
  connections_retry_mechanism envHappy (by decide)

/-! ### C9: database existence check -/

/-- Is this operation a `CREATE DATABASE` (for any database)? -/
def isCreateDb : Op → Bool
  | .createDatabase _ => true
  | _ => false

/-- `envHappy` with an ambiguous database-existence count. -/
def envDbTwo : Env :=
  { envHappy with dbCountQuery := .ok 2 }

/-- C9: once the administrative connection is up, a database-existence
count of 0 makes the run issue exactly one `CREATE DATABASE` (for the
target name); a count of 1 issues none; any other count issues none and the
process exits with non-zero status. -/
theorem db_existence_branches (env : Env)
    (hconn : (connect_loop "" env.adminOutcome env.attempts
      env.backoff).2.isSome = true) :
    (env.dbCountQuery = .ok 0 →
      (schematoMain env).1.countP isCreateDb = 1 ∧
      (schematoMain env).1.countP (isCreateDbFor env.dbName) = 1) ∧
    (env.dbCountQuery = .ok 1 →
      (schematoMain env).1.countP isCreateDb = 0) ∧
    (∀ c : Int, env.dbCountQuery = .ok c → c ≠ 0 → c ≠ 1 →
      (schematoMain env).2.2 = .fatal ∧
      (schematoMain env).1.countP isCreateDb = 0) := by
  obtain ⟨k, hAdmEq⟩ := Option.isSome_iff_exists.mp hconn
  have hMain : ∀ p : Op → Bool,
      (∀ op, isCreateDb op = false → p op = false) →
      (schematoMain env).1.countP p = (dbExistencePhase env).1.countP p := by
    intro p hz
    have hConnZ : ∀ db o a b, (connect_loop db o a b).1.countP p = 0 :=
      fun db o a b => countP_eq_zero_of_any_eq_false
        (connect_loop_any_eq_false db o a b p (fun _ => hz _ rfl)
          (hz _ rfl))
    have hApplyZ : ∀ (v : Int) (f : String),
        (apply env v f).1.any p = false :=
      fun v f => apply_any_eq_false env v f p (fun _ => hz _ rfl)
        (hz _ rfl) (fun _ => hz _ rfl) (fun _ => hz _ rfl) (hz _ rfl)
        (hz _ rfl)
    have hRunZ : ∀ (inst : List Int) (cat : List (Int × String)),
        (runCatalog env inst cat).1.countP p = 0 :=
      fun inst cat => countP_eq_zero_of_any_eq_false
        (runCatalog_any_eq_false env p (fun _ => hz _ rfl) hApplyZ inst cat)
    have hSpZ : (schemaPhase env).1.countP p = 0 :=
      countP_eq_zero_of_any_eq_false
        (schemaPhase_any_eq_false env p (hz _ rfl) (hz _ rfl) (hz _ rfl)
          (hz _ rfl))
    have hQI : p Op.queryInstalled = false := hz _ rfl
    unfold schematoMain
    simp only [hAdmEq] <;>
      cases hD : (dbExistencePhase env).2 <;>
      try (cases hTgt :
        (connect_loop env.dbName env.targetOutcome 1 env.backoff).2) <;>
      try (cases hSp : (schemaPhase env).2.2) <;>
      try (cases hI : env.installedQuery) <;>
      simp [List.countP_append, List.countP_cons, hConnZ, hRunZ, hSpZ, hQI]
  have hFatal : (dbExistencePhase env).2 = .fatal →
      (schematoMain env).2.2 = .fatal := by
    intro hD
    unfold schematoMain
    simp only [hAdmEq, hD]
  have hid : ∀ op, isCreateDb op = false → isCreateDb op = false :=
    fun _ h => h
  refine ⟨?_, ?_, ?_⟩
  · intro hq
    have hdbops : (dbExistencePhase env).1
        = [Op.queryDbCount env.dbName, Op.createDatabase env.dbName] := by
      unfold dbExistencePhase
      rw [hq]
      cases env.createDbOk <;> simp
    have hz2 : ∀ op, isCreateDb op = false →
        isCreateDbFor env.dbName op = false := by
      intro op h
      cases op <;> first | rfl | simp [isCreateDb] at h
    constructor
    · rw [hMain isCreateDb hid, hdbops]
      rfl
    · rw [hMain (isCreateDbFor env.dbName) hz2, hdbops]
      simp [List.countP_cons, isCreateDbFor]
  · intro hq
    have hdbops : (dbExistencePhase env).1 = [Op.queryDbCount env.dbName]
        := by
      unfold dbExistencePhase
      rw [hq]
      norm_num
    rw [hMain isCreateDb hid, hdbops]
    rfl
  · intro c hq h0 h1
    have hdb : dbExistencePhase env
        = ([Op.queryDbCount env.dbName], .fatal) := by
      unfold dbExistencePhase
      rw [hq]
      simp [h0, h1]
    refine ⟨hFatal (by rw [hdb]), ?_⟩
    rw [hMain isCreateDb hid, hdb]
    rfl

/-- Witness for `db_existence_branches`: an ambiguous count of 2 is fatal
with no `CREATE DATABASE` issued. -/
theorem db_existence_branches_witness :
    (schematoMain envDbTwo).2.2 = .fatal ∧
    (schematoMain envDbTwo).1.countP isCreateDb = 0 :=
  (db_existence_branches envDbTwo (by decide)).2.2 2 rfl (by decide)
    (by decide)

end Schemato
